import Mathlib

/-!
# Verification of the `glhf` OpenGL ES wrapper

A shallow embedding of the driver-calling functions of the `glhf` crate.
Each Rust function that issues GL calls is modelled as a pure Lean function
taking the driver's responses as explicit inputs and returning the list of
driver calls it issues together with its result; a Rust panic (from
`expect`, `unwrap`, `assert!`) is an explicit `panicked` outcome carrying
the calls issued before the panic. Machine integers (`usize`, `GLint`,
`GLsizei`, …) are modelled as `Nat` with the checked conversions and
checked arithmetic of the source made explicit.
-/

namespace Glhf

/-- `usize::MAX` on the 64-bit targets this crate is built for. -/
def USIZE_MAX : Nat := 2 ^ 64 - 1

/-- `GLint::MAX` (`i32`). -/
def GLINT_MAX : Nat := 2 ^ 31 - 1

/-- `GLsizei::MAX` (`i32`). -/
def GLSIZEI_MAX : Nat := 2 ^ 31 - 1

/-- `GLuint::MAX` (`u32`). -/
def GLUINT_MAX : Nat := 2 ^ 32 - 1

/-- `GLintptr::MAX` / `GLsizeiptr::MAX` / `GLint64::MAX` (`i64`). -/
def GLINT64_MAX : Nat := 2 ^ 63 - 1

namespace gl

/-- `GL_FRAMEBUFFER_COMPLETE` -/
def FRAMEBUFFER_COMPLETE : Nat := 0x8CD5

/-- `GL_FRAMEBUFFER_INCOMPLETE_ATTACHMENT` -/
def FRAMEBUFFER_INCOMPLETE_ATTACHMENT : Nat := 0x8CD6

/-- `GL_FRAMEBUFFER_INCOMPLETE_MISSING_ATTACHMENT` -/
def FRAMEBUFFER_INCOMPLETE_MISSING_ATTACHMENT : Nat := 0x8CD7

/-- `GL_FRAMEBUFFER_UNSUPPORTED` -/
def FRAMEBUFFER_UNSUPPORTED : Nat := 0x8CDD

/-- `GL_FRAMEBUFFER_INCOMPLETE_MULTISAMPLE` -/
def FRAMEBUFFER_INCOMPLETE_MULTISAMPLE : Nat := 0x8D56

/-- `GL_FRAMEBUFFER_INCOMPLETE_LAYER_TARGETS` -/
def FRAMEBUFFER_INCOMPLETE_LAYER_TARGETS : Nat := 0x8DA8

/-- `GL_DRAW_FRAMEBUFFER` -/
def DRAW_FRAMEBUFFER : Nat := 0x8CA9

/-- `GL_READ_FRAMEBUFFER` -/
def READ_FRAMEBUFFER : Nat := 0x8CA8

/-- `GL_ARRAY_BUFFER` -/
def ARRAY_BUFFER : Nat := 0x8892

/-- `GL_ELEMENT_ARRAY_BUFFER` -/
def ELEMENT_ARRAY_BUFFER : Nat := 0x8893

/-- `GL_BUFFER_SIZE` -/
def BUFFER_SIZE : Nat := 0x8764

/-- `GL_UNSIGNED_BYTE` -/
def UNSIGNED_BYTE : Nat := 0x1401

/-- `GL_UNSIGNED_SHORT` -/
def UNSIGNED_SHORT : Nat := 0x1403

/-- `GL_UNSIGNED_INT` -/
def UNSIGNED_INT : Nat := 0x1405

/-- `GL_MAP_READ_BIT` -/
def MAP_READ_BIT : Nat := 0x1

/-- `GL_MAP_WRITE_BIT` -/
def MAP_WRITE_BIT : Nat := 0x2

/-- `GL_POINTS` -/
def POINTS : Nat := 0x0

/-- `GL_LINES` -/
def LINES : Nat := 0x1

/-- `GL_LINE_LOOP` -/
def LINE_LOOP : Nat := 0x2

/-- `GL_LINE_STRIP` -/
def LINE_STRIP : Nat := 0x3

/-- `GL_TRIANGLES` -/
def TRIANGLES : Nat := 0x4

/-- `GL_TRIANGLE_STRIP` -/
def TRIANGLE_STRIP : Nat := 0x5

/-- `GL_TRIANGLE_FAN` -/
def TRIANGLE_FAN : Nat := 0x6

end gl

/-- A raw driver entry-point invocation, with the argument values passed.
Only the entry points touched by the functions under verification appear. -/
inductive GLCall where
  | DrawArrays (mode first count : Nat)
  | DrawArraysInstanced (mode first count instancecount : Nat)
  | DrawElements (mode count ty byteOffset : Nat)
  | DrawElementsInstanced (mode count ty byteOffset instancecount : Nat)
  | DrawRangeElements (mode lo hi count ty byteOffset : Nat)
  | BindFramebuffer (target name : Nat)
  | CheckFramebufferStatus (target : Nat)
  | GetBufferParameteri64v (target pname : Nat)
  | MapBufferRange (target offset length access : Nat)
  | UnmapBuffer (target : Nat)
  | GenBuffers (n : Nat)
  | GenTextures (n : Nat)
  | GenFramebuffers (n : Nat)
  | GenVertexArrays (n : Nat)
  | BufferData (target size usage : Nat)
  | BufferSubData (target offset size : Nat)
  deriving DecidableEq, Repr

/-- `usize::checked_sub`. -/
def checked_sub (a b : Nat) : Option Nat :=
  if b ≤ a then some (a - b) else none

/-- `usize::checked_mul` (overflow at `USIZE_MAX`). -/
def checked_mul (a b : Nat) : Option Nat :=
  if a * b ≤ USIZE_MAX then some (a * b) else none

/-- `usize::checked_add` (overflow at `USIZE_MAX`); also models the
overflow-checked `+` of debug builds. -/
def checked_add (a b : Nat) : Option Nat :=
  if a + b ≤ USIZE_MAX then some (a + b) else none

/-- `usize -> GLint` conversion via `try_into` (fails above `i32::MAX`). -/
def tryIntoGLint (n : Nat) : Option Nat :=
  if n ≤ GLINT_MAX then some n else none

/-- `usize -> GLsizei` conversion via `try_into` (fails above `i32::MAX`). -/
def tryIntoGLsizei (n : Nat) : Option Nat :=
  if n ≤ GLSIZEI_MAX then some n else none

/-- `usize -> GLuint` conversion via `try_into` (fails above `u32::MAX`). -/
def tryIntoGLuint (n : Nat) : Option Nat :=
  if n ≤ GLUINT_MAX then some n else none

/-- `usize -> GLintptr` / `GLsizeiptr` conversion via `try_into`
(fails above `i64::MAX`). -/
def tryIntoGLint64 (n : Nat) : Option Nat :=
  if n ≤ GLINT64_MAX then some n else none

/-- `draw::Topology` (`src/draw.rs`). -/
inductive Topology where
  | Points | LineStrip | LineLoop | Lines | TriangleStrip | TriangleFan | Triangles
  deriving DecidableEq, Repr

/-- The `repr(u32)` discriminants of `Topology`, as read by `GLEnum::as_gl`. -/
def Topology.as_gl : Topology → Nat
  | .Points => gl.POINTS
  | .LineStrip => gl.LINE_STRIP
  | .LineLoop => gl.LINE_LOOP
  | .Lines => gl.LINES
  | .TriangleStrip => gl.TRIANGLE_STRIP
  | .TriangleFan => gl.TRIANGLE_FAN
  | .Triangles => gl.TRIANGLES

/-- `draw::ElementType` (`src/draw.rs`). -/
inductive ElementType where
  | U8 | U16 | U32
  deriving DecidableEq, Repr

/-- The `repr(u32)` discriminants of `ElementType`, as read by `GLEnum::as_gl`. -/
def ElementType.as_gl : ElementType → Nat
  | .U8 => gl.UNSIGNED_BYTE
  | .U16 => gl.UNSIGNED_SHORT
  | .U32 => gl.UNSIGNED_INT

/-- `ElementType::size_of` (`src/draw.rs` lines 44-53). -/
def ElementType.size_of : ElementType → Nat
  | .U8 => 1
  | .U16 => 2
  | .U32 => 4

/-- Outcome of a draw entry point: the draw returned normally having issued
`calls`, or panicked after issuing `calls`. -/
inductive DrawResult where
  | ok (calls : List GLCall)
  | panicked (calls : List GLCall)
  deriving DecidableEq, Repr

namespace Draw

/-- `Draw::arrays` (`src/draw.rs` lines 89-126). Arguments are the
`vertices` range endpoints and the instance count; the `ArrayState` proof
bundle is zero-size and carries no data. -/
def arrays (mode : Topology) (vs ve instances : Nat) : DrawResult :=
  if vs = ve ∨ instances = 0 then .ok []
  else
    match checked_sub ve vs with
    | none => .panicked []
    | some count =>
      if instances = 1 then
        match tryIntoGLint vs, tryIntoGLsizei count with
        | some first, some c => .ok [.DrawArrays mode.as_gl first c]
        | _, _ => .panicked []
      else
        match tryIntoGLint vs, tryIntoGLsizei count, tryIntoGLsizei instances with
        | some first, some c, some i => .ok [.DrawArraysInstanced mode.as_gl first c i]
        | _, _, _ => .panicked []

/-- The driver call issued by the tail of `Draw::elements`
(`src/draw.rs` lines 166-190): the `instances == 1` special case
versus the instanced call. `pre` is the trace issued so far. -/
def elementsTail (mode : Topology) (ty : ElementType)
    (count byteOffset instances : Nat) (pre : List GLCall) : DrawResult :=
  if instances = 1 then
    match tryIntoGLsizei count with
    | some c => .ok (pre ++ [.DrawElements mode.as_gl c ty.as_gl byteOffset])
    | none => .panicked pre
  else
    match tryIntoGLsizei count, tryIntoGLsizei instances with
    | some c, some i => .ok (pre ++ [.DrawElementsInstanced mode.as_gl c ty.as_gl byteOffset i])
    | _, _ => .panicked pre

/-- The `GetBufferParameteri64v` call issued by `Active::<ElementArray>::len()`
inside the `cfg(debug_assertions)` block of the draw entry points. -/
def elementLenQuery : GLCall :=
  .GetBufferParameteri64v gl.ELEMENT_ARRAY_BUFFER gl.BUFFER_SIZE

/-- `Draw::elements` (`src/draw.rs` lines 136-191). `debug` is
`cfg(debug_assertions)`; `bufLen` is the driver's answer to the
`GL_BUFFER_SIZE` query for the bound element-array buffer. -/
def elements (debug : Bool) (mode : Topology) (ty : ElementType)
    (es ee instances bufLen : Nat) : DrawResult :=
  if es = ee ∨ instances = 0 then .ok []
  else
    match checked_sub ee es with
    | none => .panicked []
    | some count =>
      match checked_mul es ty.size_of with
      | none => .panicked []
      | some byteOffset =>
        if debug then
          match checked_mul count ty.size_of with
          | none => .panicked [elementLenQuery]
          | some countBytes =>
            match checked_add byteOffset countBytes with
            | none => .panicked [elementLenQuery]
            | some total =>
              if total ≤ bufLen then
                elementsTail mode ty count byteOffset instances [elementLenQuery]
              else .panicked [elementLenQuery]
        else elementsTail mode ty count byteOffset instances []

/-- The driver call issued by the tail of `Draw::ranged_elements`
(`src/draw.rs` lines 236-246). -/
def rangedTail (mode : Topology) (ty : ElementType)
    (lo hi count byteOffset : Nat) (pre : List GLCall) : DrawResult :=
  match tryIntoGLuint lo, tryIntoGLuint hi, tryIntoGLsizei count with
  | some l, some h, some c =>
    .ok (pre ++ [.DrawRangeElements mode.as_gl l h c ty.as_gl byteOffset])
  | _, _, _ => .panicked pre

/-- `Draw::ranged_elements` (`src/draw.rs` lines 206-247). `lo`/`hi` are the
ends of the inclusive `index_range`; there is no instance count. -/
def ranged_elements (debug : Bool) (mode : Topology) (ty : ElementType)
    (es ee lo hi bufLen : Nat) : DrawResult :=
  if es = ee then .ok []
  else
    match checked_sub ee es with
    | none => .panicked []
    | some count =>
      match checked_mul es ty.size_of with
      | none => .panicked []
      | some byteOffset =>
        if debug then
          match checked_mul count ty.size_of with
          | none => .panicked [elementLenQuery]
          | some countBytes =>
            match checked_add byteOffset countBytes with
            | none => .panicked [elementLenQuery]
            | some total =>
              if total ≤ bufLen then
                rangedTail mode ty lo hi count byteOffset [elementLenQuery]
              else .panicked [elementLenQuery]
        else rangedTail mode ty lo hi count byteOffset []

end Draw

/-- `slot::framebuffer::IncompleteErrorKind` (`src/slot/framebuffer.rs`
lines 301-324). -/
inductive IncompleteErrorKind where
  | Unspecified
  | Attachment
  | MissingAttachment
  | Unsupported
  | Multisample
  | LayerTargets
  deriving DecidableEq, Repr

/-- `IncompleteErrorKind::from_gl` (`src/slot/framebuffer.rs` lines 325-337):
the match over the driver's status value, with catch-all `Unspecified`. -/
def IncompleteErrorKind.from_gl (g : Nat) : IncompleteErrorKind :=
  if g = gl.FRAMEBUFFER_INCOMPLETE_ATTACHMENT then .Attachment
  else if g = gl.FRAMEBUFFER_INCOMPLETE_MISSING_ATTACHMENT then .MissingAttachment
  else if g = gl.FRAMEBUFFER_UNSUPPORTED then .Unsupported
  else if g = gl.FRAMEBUFFER_INCOMPLETE_MULTISAMPLE then .Multisample
  else if g = gl.FRAMEBUFFER_INCOMPLETE_LAYER_TARGETS then .LayerTargets
  else .Unspecified

/-- `framebuffer::Incomplete::into_complete_unchecked`
(`src/framebuffer/mod.rs` lines 77-79): rewraps the same non-zero name as a
`Complete` handle, allocating nothing. Handles are their names here. -/
def Incomplete.into_complete_unchecked (name : Nat) : Nat := name

/-- Result of `Slot::try_complete`: `ok` carries the `Complete` handle's
name (the paired `Active` token is zero-size), `err` carries the returned
`Incomplete` handle's name and the classified kind (the `IncompleteError`
struct's `framebuffer` and `kind` fields; its `active` token is zero-size). -/
inductive TryCompleteResult where
  | ok (complete : Nat)
  | err (framebuffer : Nat) (kind : IncompleteErrorKind)
  deriving DecidableEq, Repr

namespace Slot

/-- `slot::framebuffer::Slot::bind` (`src/slot/framebuffer.rs` lines 343-348):
issues `glBindFramebuffer(T::TARGET, name)`. The returned `Active` token is
zero-size, so only the trace is modelled. -/
def bind (target fbName : Nat) : List GLCall :=
  [.BindFramebuffer target fbName]

/-- `slot::framebuffer::Slot::try_complete` (`src/slot/framebuffer.rs`
lines 362-381). `target` is `T::TARGET`, `fbName` the `Incomplete` handle's
name, `status` the driver's answer to `glCheckFramebufferStatus`. -/
def try_complete (target fbName status : Nat) : List GLCall × TryCompleteResult :=
  (Slot.bind target fbName ++ [.CheckFramebufferStatus target],
    if status = gl.FRAMEBUFFER_COMPLETE then
      .ok (Incomplete.into_complete_unchecked fbName)
    else
      .err fbName (IncompleteErrorKind.from_gl status))

end Slot

/-- A `RangeBounds` bound (`std::ops::Bound`), as consumed by `Active::map`. -/
inductive Bound where
  | unbounded
  | included (x : Nat)
  | excluded (x : Nat)
  deriving DecidableEq, Repr

/-- The left-bound resolution of `Active::map` (`src/slot/buffer.rs`
lines 302-306): `Unbounded => 0`, `Included x => x`,
`Excluded x => x.checked_add(1).unwrap()`. `none` is the unwrap panic. -/
def resolveLeft : Bound → Option Nat
  | .unbounded => some 0
  | .included x => some x
  | .excluded x => checked_add x 1

/-- The right-bound resolution of `Active::map` (`src/slot/buffer.rs`
lines 308-312): `Unbounded => self.len()` (the driver-queried byte length),
`Included x => x.checked_add(1).unwrap()`, `Excluded x => x`. -/
def resolveRight (b : Bound) (bufLen : Nat) : Option Nat :=
  match b with
  | .unbounded => some bufLen
  | .included x => checked_add x 1
  | .excluded x => some x

/-- Outcome of `Active::map`: a `MapGuard` with the absolute byte offset and
the `len` field it stores, or a panic. -/
inductive MapOut where
  | guard (offset len : Nat)
  | panicked
  deriving DecidableEq, Repr

/-- A trace/outcome pair for `Active::map`. -/
structure MapResult where
  calls : List GLCall
  out : MapOut
  deriving DecidableEq, Repr

/-- `Active::<Binding, NotDefault>::map` plus `map_impl` (`src/slot/buffer.rs`
lines 294-339). `target` is `Binding::TARGET`, `flags` is `Access::FLAGS`,
`bufLen` is the driver's answer to the `GL_BUFFER_SIZE` query (issued only
when the right bound is `Unbounded`), and `nullPtr` says whether the
driver's `glMapBufferRange` returns a null pointer. -/
def mapRange (target flags : Nat) (left right : Bound) (bufLen : Nat)
    (nullPtr : Bool) : MapResult :=
  match resolveLeft left with
  | none => ⟨[], .panicked⟩
  | some l =>
    let rightCalls : List GLCall :=
      match right with
      | .unbounded => [.GetBufferParameteri64v target gl.BUFFER_SIZE]
      | _ => []
    match resolveRight right bufLen with
    | none => ⟨rightCalls, .panicked⟩
    | some r =>
      match checked_sub r l with
      | none => ⟨rightCalls, .panicked⟩
      | some len =>
        match tryIntoGLint64 l, tryIntoGLint64 len with
        | some off, some len64 =>
          if nullPtr then
            ⟨rightCalls ++ [.MapBufferRange target off len64 flags], .panicked⟩
          else
            ⟨rightCalls ++ [.MapBufferRange target off len64 flags], .guard off len⟩
        | _, _ => ⟨rightCalls, .panicked⟩

/-- `slot::buffer::UnmapError` (`src/slot/buffer.rs` lines 142-147). -/
inductive UnmapError where
  | Lost
  deriving DecidableEq, Repr

namespace MapGuard

/-- `MapGuard::unmap` (`src/slot/buffer.rs` lines 105-116): `mem::forget`s
the guard (suppressing the drop glue), issues one `glUnmapBuffer`, and maps
the driver's success boolean to `Ok(())` / `Err(UnmapError::Lost)`. -/
def unmap (target : Nat) (success : Bool) : List GLCall × Except UnmapError Unit :=
  ([.UnmapBuffer target], if success then .ok () else .error .Lost)

/-- `impl Drop for MapGuard` (`src/slot/buffer.rs` lines 134-140): issues one
`glUnmapBuffer` and `assert_eq!`s success; `none` is the assertion panic. -/
def drop (target : Nat) (success : Bool) : List GLCall × Option Unit :=
  ([.UnmapBuffer target], if success then some () else none)

/-- How a `MapGuard`'s lifetime ends: by the explicit `unmap(self)` (which
`mem::forget`s the guard so the drop glue never runs) or by going out of
scope (drop glue). These are the only two ways, `MapGuard` being an owned,
non-`Copy` value. -/
inductive End where
  | explicitUnmap
  | implicitDrop
  deriving DecidableEq, Repr

/-- The driver calls a guard issues over its whole lifetime, by how it ends. -/
def lifetimeCalls (target : Nat) (e : End) (success : Bool) : List GLCall :=
  match e with
  | .explicitUnmap => (MapGuard.unmap target success).1
  | .implicitDrop => (MapGuard.drop target success).1

end MapGuard

/-- Which batched `glGen*` entry point `gl_gen_with` is instantiated with. -/
inductive GenEntry where
  | buffers
  | textures
  | framebuffers
  | vertexArrays
  deriving DecidableEq, Repr

/-- The one batched creation call, with the count passed to the driver. -/
def GenEntry.call (g : GenEntry) (n : Nat) : GLCall :=
  match g with
  | .buffers => .GenBuffers n
  | .textures => .GenTextures n
  | .framebuffers => .GenFramebuffers n
  | .vertexArrays => .GenVertexArrays n

/-- Result of `gl_gen_with`: the `N` handles (as raw names), or the
checked-build panic on a zero name. -/
inductive GenResult where
  | ok (names : List Nat)
  | panicked
  deriving DecidableEq, Repr

/-- `gl_gen_with` (`src/lib.rs` lines 233-254). `debug` is
`cfg(debug_assertions)`; `names` are the `N` values the driver writes into
the output array. One batched creation call is issued; in checked builds a
zero name panics, otherwise the written names are returned as handles. -/
def gl_gen_with (debug : Bool) (entry : GenEntry) (names : List Nat) :
    List GLCall × GenResult :=
  ([entry.call names.length],
    if debug ∧ names.any (· == 0) then .panicked else .ok names)

namespace Create

/-- `Create::buffers` (`src/lib.rs` lines 84-87): `gl_gen_with(gl::GenBuffers)`. -/
def buffers (debug : Bool) (names : List Nat) : List GLCall × GenResult :=
  gl_gen_with debug .buffers names

end Create

namespace Active

/-- `Active::<Binding, NotDefault>::data` (`src/slot/buffer.rs`
lines 158-173): issues `glBufferData(TARGET, data.len(), ptr, usage)`.
`none` is the `try_into().unwrap()` panic on a length above `GLsizeiptr`. -/
def data (target : Nat) (dataBytes : List Nat) (usage : Nat) :
    List GLCall × Option Unit :=
  match tryIntoGLint64 dataBytes.length with
  | some n => ([.BufferData target n usage], some ())
  | none => ([], none)

/-- `Active::<Binding, NotDefault>::sub_data` (`src/slot/buffer.rs`
lines 200-210): issues `glBufferSubData(TARGET, offset, data.len(), ptr)`. -/
def sub_data (target offset : Nat) (dataBytes : List Nat) :
    List GLCall × Option Unit :=
  match tryIntoGLint64 offset, tryIntoGLint64 dataBytes.length with
  | some o, some n => ([.BufferSubData target o n], some ())
  | _, _ => ([], none)

/-- `Active::<Binding, NotDefault>::len` (`src/slot/buffer.rs`
lines 353-360): queries `GL_BUFFER_SIZE` from the driver. `sizeState` is
the driver's current datastore size for the bound buffer. -/
def len (target sizeState : Nat) : List GLCall × Nat :=
  ([.GetBufferParameteri64v target gl.BUFFER_SIZE], sizeState)

end Active

/-- Modelled from the spec: the driver's buffer datastore size semantics,
which live behind the raw GL entry points (external to this crate) —
"`data` (full reallocation) must leave the buffer's externally-queried
length equal to the most recent `data` call's length, not any earlier
`sub_data` call's length". A `glBufferData` on the buffer's target sets the
queried size to the uploaded length; a `glBufferSubData` overwrites bytes
without changing the size; no other modelled call changes it. -/
def applyBufferCall (target size : Nat) (c : GLCall) : Nat :=
  match c with
  | .BufferData t n _ => if t = target then n else size
  | _ => size

/-- The driver's datastore size after a trace of calls. -/
def runBufferCalls (target size : Nat) (calls : List GLCall) : Nat :=
  calls.foldl (applyBufferCall target) size

/-- Modelled from the spec: "A single-instance count is defined to behave
identically to an actual one-instance instanced call (callers may rely on
this equivalence)" — the driver-side denotation identifying a non-instanced
draw with the corresponding instanced draw of instance count 1. -/
def instancedView : GLCall → GLCall
  | .DrawArrays m f c => .DrawArraysInstanced m f c 1
  | .DrawElements m c t o => .DrawElementsInstanced m c t o 1
  | c => c

/-- The byte offset and count a draw-call invocation passes to the driver,
for the indexed-draw entry points; `none` for every other call. -/
def elemDrawParams : GLCall → Option (Nat × Nat)
  | .DrawElements _ c _ o => some (o, c)
  | .DrawElementsInstanced _ c _ o _ => some (o, c)
  | .DrawRangeElements _ _ _ c _ o => some (o, c)
  | _ => none

/-- Whether a call is the `glMapBufferRange` mapping call. -/
def isMapCall : GLCall → Bool
  | .MapBufferRange _ _ _ _ => true
  | _ => false

/-- Whether a call is a `glCheckFramebufferStatus` completeness query. -/
def isStatusCheck : GLCall → Bool
  | .CheckFramebufferStatus _ => true
  | _ => false

/-- Whether a call is a `glUnmapBuffer` call. -/
def isUnmapCall : GLCall → Bool
  | .UnmapBuffer _ => true
  | _ => false

/-- Apply a driver-call reinterpretation to a draw outcome's trace. -/
def DrawResult.mapCalls (f : GLCall → GLCall) : DrawResult → DrawResult
  | .ok calls => .ok (calls.map f)
  | .panicked calls => .panicked (calls.map f)

/-! ## Helper lemmas on the checked arithmetic -/

theorem checked_sub_some {a b c : Nat} (h : checked_sub a b = some c) :
    b ≤ a ∧ c = a - b := by
  unfold checked_sub at h
  split at h <;> simp_all

theorem checked_sub_eq {a b : Nat} (h : b ≤ a) : checked_sub a b = some (a - b) := by
  simp [checked_sub, h]

theorem checked_sub_none {a b : Nat} (h : a < b) : checked_sub a b = none := by
  simp [checked_sub]
  omega

theorem checked_mul_some {a b c : Nat} (h : checked_mul a b = some c) : c = a * b := by
  unfold checked_mul at h
  split at h <;> simp_all

theorem checked_mul_eq {a b : Nat} (h : a * b ≤ USIZE_MAX) :
    checked_mul a b = some (a * b) := by
  simp [checked_mul, h]

theorem checked_add_some {a b c : Nat} (h : checked_add a b = some c) : c = a + b := by
  unfold checked_add at h
  split at h <;> simp_all

theorem checked_add_eq {a b : Nat} (h : a + b ≤ USIZE_MAX) :
    checked_add a b = some (a + b) := by
  simp [checked_add, h]

theorem tryIntoGLsizei_some {a c : Nat} (h : tryIntoGLsizei a = some c) : c = a := by
  unfold tryIntoGLsizei at h
  split at h <;> simp_all

theorem tryIntoGLsizei_eq {a : Nat} (h : a ≤ GLSIZEI_MAX) :
    tryIntoGLsizei a = some a := by
  simp [tryIntoGLsizei, h]

theorem tryIntoGLint_eq {a : Nat} (h : a ≤ GLINT_MAX) : tryIntoGLint a = some a := by
  simp [tryIntoGLint, h]

theorem tryIntoGLuint_eq {a : Nat} (h : a ≤ GLUINT_MAX) : tryIntoGLuint a = some a := by
  simp [tryIntoGLuint, h]

theorem tryIntoGLint64_eq {a : Nat} (h : a ≤ GLINT64_MAX) :
    tryIntoGLint64 a = some a := by
  simp [tryIntoGLint64, h]

/-! ## Shape lemmas for the draw entry points -/

theorem elementsTail_ok_cases {mode : Topology} {ty : ElementType}
    {count byteOffset instances : Nat} {pre calls : List GLCall}
    (h : Draw.elementsTail mode ty count byteOffset instances pre = .ok calls) :
    ∃ c, calls = pre ++ [c] ∧ elemDrawParams c = some (byteOffset, count) := by
  unfold Draw.elementsTail at h
  split at h
  · split at h
    next c heq =>
      cases tryIntoGLsizei_some heq
      injection h with h
      subst h
      exact ⟨_, rfl, rfl⟩
    next => simp at h
  · split at h
    next c i heqc heqi =>
      cases tryIntoGLsizei_some heqc
      injection h with h
      subst h
      exact ⟨_, rfl, rfl⟩
    next => simp at h

theorem rangedTail_ok_cases {mode : Topology} {ty : ElementType}
    {lo hi count byteOffset : Nat} {pre calls : List GLCall}
    (h : Draw.rangedTail mode ty lo hi count byteOffset pre = .ok calls) :
    ∃ c, calls = pre ++ [c] ∧ elemDrawParams c = some (byteOffset, count) := by
  unfold Draw.rangedTail at h
  split at h
  next l hh c heql heqh heqc =>
    cases tryIntoGLsizei_some heqc
    injection h with h
    subst h
    exact ⟨_, rfl, rfl⟩
  next => simp at h

theorem elements_ok_shape {debug : Bool} {mode : Topology} {ty : ElementType}
    {s e instances bufLen : Nat} {calls : List GLCall}
    (h : Draw.elements debug mode ty s e instances bufLen = .ok calls)
    (hne : s ≠ e) (hinst : instances ≠ 0) :
    ∃ c, calls = (if debug then [Draw.elementLenQuery] else []) ++ [c] ∧
      elemDrawParams c = some (s * ty.size_of, e - s) := by
  unfold Draw.elements at h
  rw [if_neg (by simp [hne, hinst])] at h
  split at h
  next => simp at h
  next count heq =>
    obtain ⟨hle, rfl⟩ := checked_sub_some heq
    split at h
    next => simp at h
    next byteOffset heq2 =>
      cases checked_mul_some heq2
      split at h
      next hdbg =>
        split at h
        next => simp at h
        next cb heq3 =>
          split at h
          next => simp at h
          next total heq4 =>
            split at h
            next =>
              simpa [hdbg] using elementsTail_ok_cases h
            next => simp at h
      next hdbg =>
        simpa [hdbg] using elementsTail_ok_cases h

theorem ranged_ok_shape {debug : Bool} {mode : Topology} {ty : ElementType}
    {s e lo hi bufLen : Nat} {calls : List GLCall}
    (h : Draw.ranged_elements debug mode ty s e lo hi bufLen = .ok calls)
    (hne : s ≠ e) :
    ∃ c, calls = (if debug then [Draw.elementLenQuery] else []) ++ [c] ∧
      elemDrawParams c = some (s * ty.size_of, e - s) := by
  unfold Draw.ranged_elements at h
  rw [if_neg hne] at h
  split at h
  next => simp at h
  next count heq =>
    obtain ⟨hle, rfl⟩ := checked_sub_some heq
    split at h
    next => simp at h
    next byteOffset heq2 =>
      cases checked_mul_some heq2
      split at h
      next hdbg =>
        split at h
        next => simp at h
        next cb heq3 =>
          split at h
          next => simp at h
          next total heq4 =>
            split at h
            next =>
              simpa [hdbg] using rangedTail_ok_cases h
            next => simp at h
      next hdbg =>
        simpa [hdbg] using rangedTail_ok_cases h

/-! ## Success-path computation lemmas for the draw entry points -/

theorem elementsTail_one {mode : Topology} {ty : ElementType}
    {count byteOffset : Nat} {pre : List GLCall} (hc : count ≤ GLSIZEI_MAX) :
    Draw.elementsTail mode ty count byteOffset 1 pre =
      .ok (pre ++ [.DrawElements mode.as_gl count ty.as_gl byteOffset]) := by
  simp [Draw.elementsTail, tryIntoGLsizei_eq hc]

theorem elementsTail_many {mode : Topology} {ty : ElementType}
    {count byteOffset instances : Nat} {pre : List GLCall}
    (h2 : 2 ≤ instances) (hi : instances ≤ GLSIZEI_MAX) (hc : count ≤ GLSIZEI_MAX) :
    Draw.elementsTail mode ty count byteOffset instances pre =
      .ok (pre ++
        [.DrawElementsInstanced mode.as_gl count ty.as_gl byteOffset instances]) := by
  unfold Draw.elementsTail
  rw [if_neg (by omega)]
  simp [tryIntoGLsizei_eq hi, tryIntoGLsizei_eq hc]

theorem rangedTail_eq {mode : Topology} {ty : ElementType}
    {lo hi count byteOffset : Nat} {pre : List GLCall}
    (hlo : lo ≤ GLUINT_MAX) (hhi : hi ≤ GLUINT_MAX) (hc : count ≤ GLSIZEI_MAX) :
    Draw.rangedTail mode ty lo hi count byteOffset pre =
      .ok (pre ++ [.DrawRangeElements mode.as_gl lo hi count ty.as_gl byteOffset]) := by
  simp [Draw.rangedTail, tryIntoGLuint_eq hlo, tryIntoGLuint_eq hhi, tryIntoGLsizei_eq hc]

theorem arrays_one {mode : Topology} {s e : Nat}
    (hlt : s < e) (hs : s ≤ GLINT_MAX) (hc : e - s ≤ GLSIZEI_MAX) :
    Draw.arrays mode s e 1 = .ok [.DrawArrays mode.as_gl s (e - s)] := by
  unfold Draw.arrays
  rw [if_neg (by omega)]
  simp [checked_sub_eq (Nat.le_of_lt hlt), tryIntoGLint_eq hs, tryIntoGLsizei_eq hc]

theorem arrays_many {mode : Topology} {s e instances : Nat}
    (hlt : s < e) (h2 : 2 ≤ instances) (hs : s ≤ GLINT_MAX)
    (hc : e - s ≤ GLSIZEI_MAX) (hi : instances ≤ GLSIZEI_MAX) :
    Draw.arrays mode s e instances =
      .ok [.DrawArraysInstanced mode.as_gl s (e - s) instances] := by
  unfold Draw.arrays
  rw [if_neg (by omega)]
  simp only [checked_sub_eq (Nat.le_of_lt hlt)]
  rw [if_neg (show ¬instances = 1 by omega)]
  simp [tryIntoGLint_eq hs, tryIntoGLsizei_eq hc, tryIntoGLsizei_eq hi]

theorem elements_eq_tail {debug : Bool} {mode : Topology} {ty : ElementType}
    {s e instances bufLen : Nat} (hlt : s < e) (hinst : instances ≠ 0)
    (hfit : s * ty.size_of + (e - s) * ty.size_of ≤ bufLen)
    (hmax : s * ty.size_of + (e - s) * ty.size_of ≤ USIZE_MAX) :
    Draw.elements debug mode ty s e instances bufLen =
      Draw.elementsTail mode ty (e - s) (s * ty.size_of) instances
        (if debug then [Draw.elementLenQuery] else []) := by
  have h1 : s * ty.size_of ≤ USIZE_MAX := le_trans (Nat.le_add_right _ _) hmax
  have h2 : (e - s) * ty.size_of ≤ USIZE_MAX := le_trans (Nat.le_add_left _ _) hmax
  unfold Draw.elements
  rw [if_neg (by omega)]
  simp only [checked_sub_eq (Nat.le_of_lt hlt), checked_mul_eq h1]
  cases debug
  · simp
  · simp [checked_mul_eq h2, checked_add_eq hmax, hfit]

theorem ranged_eq_tail {debug : Bool} {mode : Topology} {ty : ElementType}
    {s e lo hi bufLen : Nat} (hlt : s < e)
    (hfit : s * ty.size_of + (e - s) * ty.size_of ≤ bufLen)
    (hmax : s * ty.size_of + (e - s) * ty.size_of ≤ USIZE_MAX) :
    Draw.ranged_elements debug mode ty s e lo hi bufLen =
      Draw.rangedTail mode ty lo hi (e - s) (s * ty.size_of)
        (if debug then [Draw.elementLenQuery] else []) := by
  have h1 : s * ty.size_of ≤ USIZE_MAX := le_trans (Nat.le_add_right _ _) hmax
  have h2 : (e - s) * ty.size_of ≤ USIZE_MAX := le_trans (Nat.le_add_left _ _) hmax
  unfold Draw.ranged_elements
  rw [if_neg (by omega)]
  simp only [checked_sub_eq (Nat.le_of_lt hlt), checked_mul_eq h1]
  cases debug
  · simp
  · simp [checked_mul_eq h2, checked_add_eq hmax, hfit]

/-! ## Claim theorems -/

/-- C1: for every Incomplete framebuffer handle, `Slot::try_complete` first
binds it, then queries the driver's completeness status exactly once; on
`GL_FRAMEBUFFER_COMPLETE` it returns `Ok` with a Complete handle carrying
the same non-zero name (no new allocation), and otherwise it returns `Err`
with the original handle's name unchanged and the error kind classified by
`IncompleteErrorKind::from_gl` (the five known status constants map to
`Attachment`, `MissingAttachment`, `Unsupported`, `Multisample`,
`LayerTargets`, and any other value to `Unspecified`). -/
theorem try_complete_spec (target fbName status : Nat) (hnz : fbName ≠ 0) :
    (Slot.try_complete target fbName status).1 =
      [.BindFramebuffer target fbName, .CheckFramebufferStatus target] ∧
    ((Slot.try_complete target fbName status).1.filter isStatusCheck).length = 1 ∧
    (status = gl.FRAMEBUFFER_COMPLETE →
      (Slot.try_complete target fbName status).2 = .ok fbName ∧ fbName ≠ 0) ∧
    (status ≠ gl.FRAMEBUFFER_COMPLETE →
      (Slot.try_complete target fbName status).2 =
        .err fbName (IncompleteErrorKind.from_gl status)) ∧
    IncompleteErrorKind.from_gl gl.FRAMEBUFFER_INCOMPLETE_ATTACHMENT = .Attachment ∧
    IncompleteErrorKind.from_gl gl.FRAMEBUFFER_INCOMPLETE_MISSING_ATTACHMENT =
      .MissingAttachment ∧
    IncompleteErrorKind.from_gl gl.FRAMEBUFFER_UNSUPPORTED = .Unsupported ∧
    IncompleteErrorKind.from_gl gl.FRAMEBUFFER_INCOMPLETE_MULTISAMPLE = .Multisample ∧
    IncompleteErrorKind.from_gl gl.FRAMEBUFFER_INCOMPLETE_LAYER_TARGETS = .LayerTargets ∧
    (status ≠ gl.FRAMEBUFFER_INCOMPLETE_ATTACHMENT →
      status ≠ gl.FRAMEBUFFER_INCOMPLETE_MISSING_ATTACHMENT →
      status ≠ gl.FRAMEBUFFER_UNSUPPORTED →
      status ≠ gl.FRAMEBUFFER_INCOMPLETE_MULTISAMPLE →
      status ≠ gl.FRAMEBUFFER_INCOMPLETE_LAYER_TARGETS →
      IncompleteErrorKind.from_gl status = .Unspecified) := by
  refine ⟨rfl, by simp [Slot.try_complete, Slot.bind, isStatusCheck], ?_, ?_, by decide,
    by decide, by decide, by decide, by decide, ?_⟩
  · intro h
    simp [Slot.try_complete, h, Incomplete.into_complete_unchecked, hnz]
  · intro h
    simp [Slot.try_complete, h]
  · intro h1 h2 h3 h4 h5
    simp [IncompleteErrorKind.from_gl, h1, h2, h3, h4, h5]

/-- Witness for C1 at a concrete handle and the complete status. -/
theorem try_complete_spec_witness :
    (Slot.try_complete gl.DRAW_FRAMEBUFFER 1 gl.FRAMEBUFFER_COMPLETE).2 =
      .ok 1 :=
  ((try_complete_spec gl.DRAW_FRAMEBUFFER 1 gl.FRAMEBUFFER_COMPLETE
    (by decide)).2.2.1 rfl).1

/-- C3: every draw entry point whose range has `start == end` — and
`Draw::arrays` / `Draw::elements` additionally whenever `instances == 0` —
returns without issuing any driver call (empty trace, no panic). -/
theorem draw_zero_noop (debug : Bool) (mode : Topology) (ty : ElementType)
    (s e instances bufLen lo hi : Nat) :
    Draw.arrays mode s s instances = .ok [] ∧
    Draw.arrays mode s e 0 = .ok [] ∧
    Draw.elements debug mode ty s s instances bufLen = .ok [] ∧
    Draw.elements debug mode ty s e 0 bufLen = .ok [] ∧
    Draw.ranged_elements debug mode ty s s lo hi bufLen = .ok [] := by
  refine ⟨?_, ?_, ?_, ?_, ?_⟩ <;>
    simp [Draw.arrays, Draw.elements, Draw.ranged_elements]

/-- C8: every `MapGuard` issues exactly one `glUnmapBuffer` call over its
lifetime, whether ended by the explicit `unmap(self)` (which suppresses the
drop glue) or by the drop glue; the explicit path returns `Ok(())` on
driver success and `Err(UnmapError::Lost)` on failure, while the drop path
panics exactly when the driver reports failure. -/
theorem map_guard_single_unmap (target : Nat) (success : Bool) (e : MapGuard.End) :
    ((MapGuard.lifetimeCalls target e success).filter isUnmapCall).length = 1 ∧
    (MapGuard.unmap target success).1 = [.UnmapBuffer target] ∧
    ((MapGuard.unmap target success).2 = .ok () ↔ success = true) ∧
    ((MapGuard.unmap target success).2 = .error .Lost ↔ success = false) ∧
    (MapGuard.drop target success).1 = [.UnmapBuffer target] ∧
    ((MapGuard.drop target success).2 = none ↔ success = false) := by
  cases e <;> cases success <;>
    simp [MapGuard.lifetimeCalls, MapGuard.unmap, MapGuard.drop, isUnmapCall]

/-- C9: `gl_gen_with` (and `Create::buffers` built on it) issues exactly one
batched creation call and returns the `N` driver-written names as handles;
in checked builds it panics exactly when one of those values is zero, so
every handle it does return carries a non-zero name. -/
theorem gen_nonzero_names (entry : GenEntry) (names : List Nat) :
    (gl_gen_with true entry names).1 = [entry.call names.length] ∧
    (gl_gen_with true entry names).1.length = 1 ∧
    ((gl_gen_with true entry names).2 = .panicked ↔ ∃ n ∈ names, n = 0) ∧
    (∀ result, (gl_gen_with true entry names).2 = .ok result →
      result = names ∧ ∀ n ∈ result, n ≠ 0) ∧
    Create.buffers true names = gl_gen_with true .buffers names := by
  by_cases h : names.any (· == 0) = true
  · refine ⟨rfl, rfl, ?_, ?_, rfl⟩
    · simp only [gl_gen_with, true_and, h, if_true]
      simp only [List.any_eq_true, beq_iff_eq] at h
      simpa using h
    · intro result hres
      simp [gl_gen_with, h] at hres
  · refine ⟨rfl, rfl, ?_, ?_, rfl⟩
    · simp only [gl_gen_with, true_and, h, if_false]
      simp only [List.any_eq_true, beq_iff_eq] at h
      simpa using h
    · intro result hres
      simp [gl_gen_with, h] at hres
      subst hres
      simp only [List.any_eq_true, beq_iff_eq] at h
      refine ⟨rfl, fun n hn h0 => h ⟨n, hn, h0⟩⟩

/-- C2: for every indexed draw over a non-empty range with
`start <= end`, every index-fetching call passed to the driver carries byte
offset `start * size_of(element_type)` and count `end - start`; with
`elements = 0..6` and `U16` the offset is 0 and the count 6, with
`elements = 2..6` the offset is 4 and the count 4; `size_of` is 1, 2, 4 for
`U8`, `U16`, `U32`. -/
theorem indexed_draw_offset_count (debug : Bool) (mode : Topology) (ty : ElementType)
    (s e instances bufLen lo hi : Nat) (hlt : s < e) :
    (∀ calls, Draw.elements debug mode ty s e instances bufLen = .ok calls →
      ∀ c ∈ calls, ∀ p, elemDrawParams c = some p → p = (s * ty.size_of, e - s)) ∧
    (∀ calls, Draw.ranged_elements debug mode ty s e lo hi bufLen = .ok calls →
      ∀ c ∈ calls, ∀ p, elemDrawParams c = some p → p = (s * ty.size_of, e - s)) ∧
    Draw.elements true mode .U16 0 6 1 12 =
      .ok [Draw.elementLenQuery, .DrawElements mode.as_gl 6 gl.UNSIGNED_SHORT 0] ∧
    Draw.elements true mode .U16 2 6 1 12 =
      .ok [Draw.elementLenQuery, .DrawElements mode.as_gl 4 gl.UNSIGNED_SHORT 4] ∧
    ElementType.size_of .U8 = 1 ∧ ElementType.size_of .U16 = 2 ∧
    ElementType.size_of .U32 = 4 := by
  refine ⟨?_, ?_, ?_, ?_, rfl, rfl, rfl⟩
  · intro calls h c hc p hp
    by_cases hinst : instances = 0
    · unfold Draw.elements at h
      rw [if_pos (Or.inr hinst)] at h
      injection h with h
      subst h
      simp at hc
    · obtain ⟨c0, rfl, hp0⟩ := elements_ok_shape h (by omega) hinst
      rw [List.mem_append] at hc
      rcases hc with hc | hc
      · cases debug <;> simp_all [Draw.elementLenQuery, elemDrawParams]
      · simp only [List.mem_singleton] at hc
        subst hc
        rw [hp0] at hp
        injection hp with hp
        exact hp.symm
  · intro calls h c hc p hp
    obtain ⟨c0, rfl, hp0⟩ := ranged_ok_shape h (by omega)
    rw [List.mem_append] at hc
    rcases hc with hc | hc
    · cases debug <;> simp_all [Draw.elementLenQuery, elemDrawParams]
    · simp only [List.mem_singleton] at hc
      subst hc
      rw [hp0] at hp
      injection hp with hp
      exact hp.symm
  · rw [elements_eq_tail (by decide) (by decide) (by decide) (by decide),
      elementsTail_one (by decide)]
    norm_num [ElementType.as_gl, ElementType.size_of]
  · rw [elements_eq_tail (by decide) (by decide) (by decide) (by decide),
      elementsTail_one (by decide)]
    norm_num [ElementType.as_gl, ElementType.size_of]

/-- Witness for C2 at the spec's concrete example `elements = 2..6`, `U16`. -/
theorem indexed_draw_offset_count_witness :
    Draw.elements true Topology.Triangles ElementType.U16 2 6 1 12 =
      .ok [Draw.elementLenQuery,
        .DrawElements Topology.Triangles.as_gl 4 gl.UNSIGNED_SHORT 4] :=
  (indexed_draw_offset_count true .Triangles .U16 2 6 1 12 0 0
    (by decide)).2.2.2.1

/-- C4: with a non-empty range and `instances == 1`, `Draw::arrays` and
`Draw::elements` issue the non-instanced entry point with exactly the mode,
start/offset, count and element type the instanced entry point would
receive with instance count 1 (so that under the spec-defined driver
equivalence `instancedView`, the issued trace coincides with the
one-instance instanced trace); with `instances >= 2` the instanced entry
point is issued with that instance count. -/
theorem single_instance_refinement (debug : Bool) (mode : Topology) (ty : ElementType)
    (s e bufLen instances : Nat) (hlt : s < e) (hs : s ≤ GLINT_MAX)
    (hc : e - s ≤ GLSIZEI_MAX)
    (hfit : s * ty.size_of + (e - s) * ty.size_of ≤ bufLen)
    (hbuf : bufLen ≤ USIZE_MAX) :
    Draw.arrays mode s e 1 = .ok [.DrawArrays mode.as_gl s (e - s)] ∧
    (Draw.arrays mode s e 1).mapCalls instancedView =
      .ok [.DrawArraysInstanced mode.as_gl s (e - s) 1] ∧
    (2 ≤ instances → instances ≤ GLSIZEI_MAX →
      Draw.arrays mode s e instances =
        .ok [.DrawArraysInstanced mode.as_gl s (e - s) instances]) ∧
    Draw.elements debug mode ty s e 1 bufLen =
      .ok ((if debug then [Draw.elementLenQuery] else []) ++
        [.DrawElements mode.as_gl (e - s) ty.as_gl (s * ty.size_of)]) ∧
    (Draw.elements debug mode ty s e 1 bufLen).mapCalls instancedView =
      .ok ((if debug then [Draw.elementLenQuery] else []) ++
        [.DrawElementsInstanced mode.as_gl (e - s) ty.as_gl (s * ty.size_of) 1]) ∧
    (2 ≤ instances → instances ≤ GLSIZEI_MAX →
      Draw.elements debug mode ty s e instances bufLen =
        .ok ((if debug then [Draw.elementLenQuery] else []) ++
          [.DrawElementsInstanced mode.as_gl (e - s) ty.as_gl
            (s * ty.size_of) instances])) := by
  have hmax := le_trans hfit hbuf
  have he1 := @elements_eq_tail debug mode ty s e 1 bufLen hlt
    Nat.one_ne_zero hfit hmax
  refine ⟨arrays_one hlt hs hc, ?_, ?_, ?_, ?_, ?_⟩
  · rw [arrays_one hlt hs hc]
    simp [DrawResult.mapCalls, instancedView]
  · intro h2 hi
    exact arrays_many hlt h2 hs hc hi
  · rw [he1, elementsTail_one hc]
  · rw [he1, elementsTail_one hc]
    cases debug <;> simp [DrawResult.mapCalls, instancedView, Draw.elementLenQuery]
  · intro h2 hi
    rw [elements_eq_tail hlt (by omega) hfit hmax, elementsTail_many h2 hi hc]

/-- Witness for C4 at `vertices = 0..3`, one instance. -/
theorem single_instance_refinement_witness :
    Draw.arrays Topology.Triangles 0 3 1 =
      .ok [.DrawArrays Topology.Triangles.as_gl 0 3] :=
  (single_instance_refinement false .Triangles .U16 0 3 6 2 (by decide) (by decide)
    (by decide) (by decide) (by decide)).1

/-- C5 (amended): every draw entry point panics on a reversed range
(`end < start`) whenever the call is not already a zero no-op, before any
driver call is issued (empty trace); `Active::map` panics whenever the
resolved exclusive right bound is less than the resolved left bound,
before the mapping driver call is issued — though when the right bound is
unbounded, the buffer-length query has already been issued at that point. -/
theorem reversed_range_rejected (debug : Bool) (mode : Topology) (ty : ElementType)
    (s e instances bufLen lo hi target flags : Nat) (lB rB : Bound) (nullPtr : Bool)
    (hrev : e < s) (hinst : instances ≠ 0) :
    Draw.arrays mode s e instances = .panicked [] ∧
    Draw.elements debug mode ty s e instances bufLen = .panicked [] ∧
    Draw.ranged_elements debug mode ty s e lo hi bufLen = .panicked [] ∧
    (∀ l r, resolveLeft lB = some l → resolveRight rB bufLen = some r → r < l →
      (mapRange target flags lB rB bufLen nullPtr).out = .panicked ∧
      ∀ c ∈ (mapRange target flags lB rB bufLen nullPtr).calls,
        isMapCall c = false) := by
  refine ⟨?_, ?_, ?_, ?_⟩
  · unfold Draw.arrays
    rw [if_neg (by omega)]
    simp [checked_sub_none hrev]
  · unfold Draw.elements
    rw [if_neg (by omega)]
    simp [checked_sub_none hrev]
  · unfold Draw.ranged_elements
    rw [if_neg (by omega)]
    simp [checked_sub_none hrev]
  · intro l r hl hr hlt2
    unfold mapRange
    simp only [hl, hr, checked_sub_none hlt2]
    cases rB <;> simp [isMapCall]

/-- Witness for C5 (amended) at the reversed range `5..2`. -/
theorem reversed_range_rejected_witness :
    Draw.arrays Topology.Points 5 2 1 = .panicked [] :=
  (reversed_range_rejected false .Points .U16 5 2 1 0 0 0 0 0 .unbounded .unbounded
    false (by decide) (by decide)).1

/-- C5 counterexample: at `range = 10..` (unbounded right bound) over a
buffer the driver reports as 5 bytes long, `Active::map` does panic on the
reversed resolved range, but only after the buffer-length query — a driver
call — has been issued, so the panic does not precede every driver call of
the operation as the claim states. -/
theorem map_reversed_range_issues_query :
    (mapRange gl.ARRAY_BUFFER gl.MAP_READ_BIT (.included 10) .unbounded 5
      false).out = .panicked ∧
    (mapRange gl.ARRAY_BUFFER gl.MAP_READ_BIT (.included 10) .unbounded 5
      false).calls = [.GetBufferParameteri64v gl.ARRAY_BUFFER gl.BUFFER_SIZE] ∧
    (mapRange gl.ARRAY_BUFFER gl.MAP_READ_BIT (.included 10) .unbounded 5
      false).calls ≠ [] := by
  refine ⟨?_, ?_, ?_⟩ <;> decide

/-- C6: in checked builds, every non-no-op indexed draw whose computed byte
span `byte_offset + count * size_of` exceeds the element buffer's
driver-queried length panics after the length query without issuing a draw
call, and when the span fits the assertion passes and the draw call is
issued. -/
theorem debug_bounds_check (mode : Topology) (ty : ElementType)
    (s e instances bufLen lo hi : Nat) (hlt : s < e) (hinst : instances ≠ 0)
    (hmax : s * ty.size_of + (e - s) * ty.size_of ≤ USIZE_MAX) :
    (bufLen < s * ty.size_of + (e - s) * ty.size_of →
      Draw.elements true mode ty s e instances bufLen =
        .panicked [Draw.elementLenQuery] ∧
      Draw.ranged_elements true mode ty s e lo hi bufLen =
        .panicked [Draw.elementLenQuery]) ∧
    (s * ty.size_of + (e - s) * ty.size_of ≤ bufLen →
      instances ≤ GLSIZEI_MAX → e - s ≤ GLSIZEI_MAX →
      lo ≤ GLUINT_MAX → hi ≤ GLUINT_MAX →
      (∃ c, Draw.elements true mode ty s e instances bufLen =
          .ok ([Draw.elementLenQuery] ++ [c]) ∧
        elemDrawParams c = some (s * ty.size_of, e - s)) ∧
      Draw.ranged_elements true mode ty s e lo hi bufLen =
        .ok ([Draw.elementLenQuery] ++
          [.DrawRangeElements mode.as_gl lo hi (e - s) ty.as_gl
            (s * ty.size_of)])) := by
  have h1 : s * ty.size_of ≤ USIZE_MAX := le_trans (Nat.le_add_right _ _) hmax
  have h2 : (e - s) * ty.size_of ≤ USIZE_MAX := le_trans (Nat.le_add_left _ _) hmax
  refine ⟨?_, ?_⟩
  · intro hlen
    constructor
    · unfold Draw.elements
      rw [if_neg (by omega)]
      simp only [checked_sub_eq (Nat.le_of_lt hlt), checked_mul_eq h1,
        checked_mul_eq h2, checked_add_eq hmax]
      simp [Nat.not_le.mpr hlen]
    · unfold Draw.ranged_elements
      rw [if_neg (by omega)]
      simp only [checked_sub_eq (Nat.le_of_lt hlt), checked_mul_eq h1,
        checked_mul_eq h2, checked_add_eq hmax]
      simp [Nat.not_le.mpr hlen]
  · intro hfit hi hcnt hlo hhi
    constructor
    · by_cases hone : instances = 1
      · subst hone
        refine ⟨.DrawElements mode.as_gl (e - s) ty.as_gl (s * ty.size_of), ?_, rfl⟩
        rw [elements_eq_tail hlt hinst hfit hmax, elementsTail_one hcnt]
        simp
      · have h2i : 2 ≤ instances := by omega
        refine ⟨.DrawElementsInstanced mode.as_gl (e - s) ty.as_gl
          (s * ty.size_of) instances, ?_, rfl⟩
        rw [elements_eq_tail hlt hinst hfit hmax, elementsTail_many h2i hi hcnt]
        simp
    · rw [ranged_eq_tail hlt hfit hmax, rangedTail_eq hlo hhi hcnt]
      simp

/-- Witness for C6: a span of 12 bytes over an 8-byte element buffer panics
after the length query; over a 12-byte buffer the draw proceeds. -/
theorem debug_bounds_check_witness :
    Draw.elements true Topology.Triangles ElementType.U16 0 6 1 8 =
      .panicked [Draw.elementLenQuery] :=
  ((debug_bounds_check Topology.Triangles ElementType.U16 0 6 1 8 0 0
    (by decide) (by decide) (by decide)).1 (by decide)).1

/-- C7: `Active::map` resolves an unbounded left bound to 0, an included
left bound `x` to `x`, an excluded left bound `x` to `x + 1`; an unbounded
right bound to the driver-queried buffer length (the query is the first
driver call issued), an included right bound `x` to `x + 1`, an excluded
right bound `x` to `x`; the produced guard's length is resolved right minus
resolved left, and a null pointer from the driver's mapping call panics. -/
theorem map_bound_resolution (target flags x bufLen l r : Nat) (lB rB : Bound)
    (hx : x < USIZE_MAX) :
    resolveLeft .unbounded = some 0 ∧
    resolveLeft (.included x) = some x ∧
    resolveLeft (.excluded x) = some (x + 1) ∧
    resolveRight .unbounded bufLen = some bufLen ∧
    resolveRight (.included x) bufLen = some (x + 1) ∧
    resolveRight (.excluded x) bufLen = some x ∧
    (∀ lv, resolveLeft lB = some lv →
      (mapRange target flags lB .unbounded bufLen false).calls.head? =
        some (.GetBufferParameteri64v target gl.BUFFER_SIZE)) ∧
    (resolveLeft lB = some l → resolveRight rB bufLen = some r → l ≤ r →
      r ≤ GLINT64_MAX →
      (mapRange target flags lB rB bufLen false).out = .guard l (r - l) ∧
      (mapRange target flags lB rB bufLen true).out = .panicked) := by
  have hx1 : x + 1 ≤ USIZE_MAX := by omega
  refine ⟨rfl, rfl, ?_, rfl, ?_, rfl, ?_, ?_⟩
  · simp [resolveLeft, checked_add_eq hx1]
  · simp [resolveRight, checked_add_eq hx1]
  · intro lv hlv
    unfold mapRange
    simp only [hlv, resolveRight]
    cases hcs : checked_sub bufLen lv with
    | none => simp
    | some len =>
      cases ho : tryIntoGLint64 lv with
      | none => simp
      | some off =>
        cases hl2 : tryIntoGLint64 len with
        | none => simp [hl2]
        | some len64 => simp [hl2]
  · intro hl hr hle hr64
    have hlen : r - l ≤ GLINT64_MAX := le_trans (Nat.sub_le _ _) hr64
    have hoff : l ≤ GLINT64_MAX := le_trans hle hr64
    constructor <;>
      · unfold mapRange
        simp [hl, hr, checked_sub_eq hle, tryIntoGLint64_eq hoff,
          tryIntoGLint64_eq hlen]

/-- Witness for C7 at the concrete range `2..8` over a 100-byte buffer. -/
theorem map_bound_resolution_witness :
    (mapRange gl.ARRAY_BUFFER gl.MAP_READ_BIT (.included 2) (.excluded 8) 100
      false).out = .guard 2 6 :=
  ((map_bound_resolution gl.ARRAY_BUFFER gl.MAP_READ_BIT 3 100 2 8 (.included 2)
    (.excluded 8) (by decide)).2.2.2.2.2.2.2 (by decide) (by decide) (by decide)
    (by decide)).1

/-- C10: a `glBufferData` upload of `bytes` sets the driver-queried buffer
length to `bytes.len()`, a `glBufferSubData` overwrite leaves it unchanged,
and after any sequence of `sub_data` calls followed by a `data` call the
queried length (as returned by `Active::len`) is the last `data` call's
byte length. -/
theorem buffer_len_tracks_last_data (target usage size0 offset : Nat)
    (subs : List (Nat × List Nat)) (bytes other : List Nat)
    (hb : bytes.length ≤ GLINT64_MAX) :
    runBufferCalls target size0 (Active.data target bytes usage).1 =
      bytes.length ∧
    runBufferCalls target size0 (Active.sub_data target offset other).1 =
      size0 ∧
    (Active.len target (runBufferCalls target size0
        ((subs.flatMap fun p => (Active.sub_data target p.1 p.2).1) ++
          (Active.data target bytes usage).1))).2 = bytes.length := by
  have key : ∀ i, runBufferCalls target i (Active.data target bytes usage).1 =
      bytes.length := by
    intro i
    simp [Active.data, tryIntoGLint64_eq hb, runBufferCalls, applyBufferCall]
  refine ⟨key size0, ?_, ?_⟩
  · unfold Active.sub_data
    split <;> simp [runBufferCalls, applyBufferCall]
  · simp only [Active.len]
    unfold runBufferCalls
    rw [List.foldl_append]
    exact key _

/-- Witness for C10: two `sub_data` writes then a 3-byte `data` upload leave
the queried length at 3. -/
theorem buffer_len_tracks_last_data_witness :
    (Active.len gl.ARRAY_BUFFER (runBufferCalls gl.ARRAY_BUFFER 0
        (([(0, [9]), (2, [7, 7])].flatMap
            fun p => (Active.sub_data gl.ARRAY_BUFFER p.1 p.2).1) ++
          (Active.data gl.ARRAY_BUFFER [1, 2, 3] 0).1))).2 = 3 :=
  (buffer_len_tracks_last_data gl.ARRAY_BUFFER 0 0 0 [(0, [9]), (2, [7, 7])]
    [1, 2, 3] [] (by decide)).2.2

end Glhf
